import Mathlib

/-!
Shallow embedding of the OVMS ABRP telemetry plugin (src/lib/abrp.js,
version 2.2.0-beta half of the file; the functions named by the claims:
round, isSignificantTelemetryChange, medianPowerMetrics, overrideMetricMap,
queueTelemetry, removeTelemetry, createBulkPost, sendBulkTelemetry,
processTelemetryQueue, queueTelemetryIfNecessary, calculateMaxElapsedDuration).

JavaScript numbers are modelled as rationals; the special values
undefined, NaN, Infinity and booleans get their own constructors so that
truthiness, strict equality and arithmetic coercions follow the JS rules.
Code that can raise a runtime TypeError (calling toFixed on a Boolean)
is modelled with Option, none meaning the exception.
-/

namespace Abrp

/-- Model of a JavaScript value as it can appear in a telemetry field:
undefined (absent property), a boolean, a finite number (as a rational),
NaN, or a signed infinity. -/
inductive JSVal where
  | undef
  | boolb (b : Bool)
  | num (q : ℚ)
  | nan
  | posInf
  | negInf
deriving DecidableEq, Repr

/-- JS falsiness: undefined, false, 0 and NaN are falsy; infinities and
nonzero numbers are truthy. -/
def jsFalsy : JSVal → Bool
  | .undef => true
  | .boolb b => !b
  | .num q => q == 0
  | .nan => true
  | .posInf => false
  | .negInf => false

def jsTruthy (v : JSVal) : Bool := !jsFalsy v

/-- JS strict equality (no coercion); NaN is not strictly equal to itself. -/
def jsStrictEq : JSVal → JSVal → Bool
  | .undef, .undef => true
  | .boolb a, .boolb b => a == b
  | .num a, .num b => a == b
  | .posInf, .posInf => true
  | .negInf, .negInf => true
  | _, _ => false

/-- JS ToNumber coercion restricted to the values of the model:
undefined coerces to NaN, booleans to 0 or 1, numbers stay themselves. -/
def toNumber : JSVal → JSVal
  | .undef => .nan
  | .boolb b => .num (if b then 1 else 0)
  | .num q => .num q
  | .nan => .nan
  | .posInf => .posInf
  | .negInf => .negInf

/-- JS subtraction after ToNumber; NaN propagates, infinities follow
IEEE rules. -/
def jsSub (a b : JSVal) : JSVal :=
  match toNumber a, toNumber b with
  | .num x, .num y => .num (x - y)
  | .posInf, .num _ => .posInf
  | .posInf, .negInf => .posInf
  | .negInf, .num _ => .negInf
  | .negInf, .posInf => .negInf
  | .num _, .posInf => .negInf
  | .num _, .negInf => .posInf
  | _, _ => .nan

/-- Truncation toward zero of a rational, as JS division-based remainder uses. -/
def qTrunc (x : ℚ) : ℤ := if x < 0 then -⌊-x⌋ else ⌊x⌋

/-- JS remainder operator after ToNumber: sign of the dividend, NaN on a
zero or NaN divisor or non-finite dividend; a finite dividend with an
infinite divisor is returned unchanged. -/
def jsMod (a b : JSVal) : JSVal :=
  match toNumber a, toNumber b with
  | .num x, .num y => if y = 0 then .nan else .num (x - y * qTrunc (x / y))
  | .num x, .posInf => .num x
  | .num x, .negInf => .num x
  | _, _ => .nan

/-- JS relation a GREATER-OR-EQUAL b after ToNumber; false whenever either
side is NaN. -/
def jsGe (a b : JSVal) : Bool :=
  match toNumber a, toNumber b with
  | .num x, .num y => decide (y ≤ x)
  | .posInf, .num _ => true
  | .posInf, .posInf => true
  | .posInf, .negInf => true
  | .negInf, .negInf => true
  | .num _, .negInf => true
  | .num _, .posInf => false
  | .negInf, .num _ => false
  | .negInf, .posInf => false
  | _, _ => false

/-- JS relation a STRICTLY-GREATER b after ToNumber; false whenever either
side is NaN. -/
def jsGt (a b : JSVal) : Bool :=
  match toNumber a, toNumber b with
  | .num x, .num y => decide (y < x)
  | .posInf, .num _ => true
  | .posInf, .negInf => true
  | .num _, .negInf => true
  | _, _ => false

/-- The ECMA toFixed(p) algorithm on a finite number: extract the sign,
then pick the integer n for which n divided by 10 to the p is closest to
the magnitude, preferring the larger n on a tie, and scale back.
The spec branch for magnitudes at or above 10 to the 21 returns the
number unchanged; on every such double the number is an integer, where
this formula is also the identity, so the branch is not modelled apart. -/
def toFixedQ (q : ℚ) (p : ℕ) : ℚ :=
  if q < 0 then -(((⌊(-q) * 10 ^ p + 1 / 2⌋ : ℤ) : ℚ) / 10 ^ p)
  else ((⌊q * 10 ^ p + 1 / 2⌋ : ℤ) : ℚ) / 10 ^ p

/-- Modelled from the spec wording of the rounding policy: rounding
half away from zero to an integer. Used only to compare against the
source-side toFixedQ. -/
def specRoundHalfAwayFromZero (q : ℚ) : ℤ :=
  if 0 ≤ q then ⌊q + 1 / 2⌋ else -⌊-q + 1 / 2⌋

/-- Embedding of the source function round(number, precision): a falsy
number (0, undefined, NaN, false) is returned unchanged; otherwise the
number is passed through toFixed with the given precision defaulted to 0
and parsed back. Calling toFixed on the boolean true raises a TypeError,
modelled as none. -/
def round (number : JSVal) (precision : Option ℕ) : Option JSVal :=
  if jsFalsy number then some number
  else match number with
    | .num q => some (.num (toFixedQ q (precision.getD 0)))
    | .posInf => some .posInf
    | .negInf => some .negInf
    | _ => none

/-- The telemetry fields read by the control logic of the plugin. Every
field is a JS value; an absent field is undef. -/
structure Telemetry where
  utc : JSVal
  soc : JSVal
  power : JSVal
  speed : JSVal
  is_charging : JSVal
  is_parked : JSVal
  is_dcfc : JSVal
deriving DecidableEq, Repr

/-- Embedding of isSignificantTelemetryChange: significant when soc,
charging flag or parked flag strictly differ, or while charging when the
rounded powers strictly differ. The rounding can raise, hence Option. -/
def isSignificantTelemetryChange (currentTelemetry previousTelemetry : Telemetry) :
    Option Bool :=
  if !(jsStrictEq currentTelemetry.soc previousTelemetry.soc) then some true
  else if !(jsStrictEq currentTelemetry.is_charging previousTelemetry.is_charging) then
    some true
  else if !(jsStrictEq currentTelemetry.is_parked previousTelemetry.is_parked) then
    some true
  else if jsTruthy currentTelemetry.is_charging then do
    let rc ← round currentTelemetry.power none
    let rp ← round previousTelemetry.power none
    pure (!(jsStrictEq rc rp))
  else some false

/-- The ordering used by the sort comparator of medianPowerMetrics,
keyed by the power reading of an element. -/
def powLe {α : Type} (pw : α → ℚ) (a b : α) : Prop := pw a ≤ pw b

instance {α : Type} (pw : α → ℚ) : DecidableRel (powLe pw) :=
  fun a b => inferInstanceAs (Decidable (pw a ≤ pw b))

/-- Effect-explicit embedding of medianPowerMetrics: the source copies the
array with slice() and sorts only the copy in place, so the call returns
both the selected reading and the array of the caller, which flows through
unchanged. The engine sort is modelled as insertion sort on the power key. -/
def medianPowerMetricsRun {α : Type} (pw : α → ℚ) (array : List α) :
    Option α × List α :=
  if array.length = 0 then (none, array)
  else
    let copy := array
    let sorted := List.insertionSort (powLe pw) copy
    let midpoint := sorted.length / 2
    (if sorted.length % 2 = 0 then sorted[midpoint - 1]? else sorted[midpoint]?, array)

/-- The value returned by medianPowerMetrics. -/
def medianPowerMetrics {α : Type} (pw : α → ℚ) (array : List α) : Option α :=
  (medianPowerMetricsRun pw array).1

-- Module configuration constants of version 2.2.0-beta.

def BANDWIDTH_SAVER : Bool := false
def MIN_CALIBRATION_SPEED : ℚ := 70
def METRIC_POLL_RATE_DRIVING : ℚ := 5
def METRIC_POLL_RATE_CHARGING : ℚ := 30 * 60
def TELEMETRY_TRANSMIT_RATE : ℚ := 60
def METRIC_POLL_STALE_CONNECTION : ℚ := (3 * 60) - 20 - TELEMETRY_TRANSMIT_RATE

/-- Embedding of calculateMaxElapsedDuration: a priority-ordered decision
table, first matching rule wins. The significance test can raise, hence
Option. The second argument is the module variable lastSentTelemetry. -/
def calculateMaxElapsedDuration (telemetry lastSentTelemetry : Telemetry) : Option ℚ :=
  (isSignificantTelemetryChange telemetry lastSentTelemetry).bind fun significant =>
    if significant then some 0
    else if jsGt telemetry.speed (.num MIN_CALIBRATION_SPEED) then
      some METRIC_POLL_RATE_DRIVING
    else if !(jsTruthy telemetry.is_parked) || jsTruthy telemetry.is_dcfc then
      some METRIC_POLL_STALE_CONNECTION
    else if jsTruthy telemetry.is_charging then some METRIC_POLL_RATE_CHARGING
    else some (24 * 3600)

/-- The module-level mutable state of the plugin: the transmission queue
telemetryToSend, the last queued snapshot, the smoothing window
collectedMetrics, and, for the asynchronous HTTP layer, the list of the
posted bodies of bulk requests that have not yet received their callback
(oldest first). -/
structure AgentState where
  telemetryToSend : List Telemetry
  lastSentTelemetry : Telemetry
  collectedMetrics : List Telemetry
  inFlight : List (List Telemetry)
deriving DecidableEq, Repr

/-- Power key used when the smoothing window is sorted: collected entries
are whole telemetry objects; a non-numeric power (never produced by the
live collection path) is keyed as 0, the comparator behaviour of the
engine being unspecified there. -/
def telemetryPowerKey (t : Telemetry) : ℚ :=
  match t.power with
  | .num q => q
  | _ => 0

/-- Embedding of queueTelemetry(telemetry, processCollectedData): when
asked to, it smooths power and speed from the median of the collected
window, then appends the snapshot to telemetryToSend, records it as
lastSentTelemetry, and clears the window. The smoothing rounds can raise,
hence Option. -/
def queueTelemetry (st : AgentState) (telemetry : Telemetry)
    (processCollectedData : Bool) : Option AgentState := do
  let telemetry ←
    if processCollectedData && !(st.collectedMetrics.length == 0) then
      match medianPowerMetrics telemetryPowerKey st.collectedMetrics with
      | some medianMetrics => do
        let p ← round medianMetrics.power (some 2)
        let s ← round medianMetrics.speed none
        pure { telemetry with power := p, speed := s }
      | none => pure telemetry
    else pure telemetry
  pure { st with
    telemetryToSend := st.telemetryToSend ++ [telemetry],
    lastSentTelemetry := telemetry,
    collectedMetrics := [] }

/-- Embedding of removeTelemetry(count): drops count elements from the
front of telemetryToSend. -/
def removeTelemetry (st : AgentState) (count : ℕ) : AgentState :=
  { st with telemetryToSend := st.telemetryToSend.drop count }

/-- Embedding of createBulkPost: the tlm_list of the request body is the
first 10 elements of the queue. -/
def createBulkPost (st : AgentState) : List Telemetry :=
  st.telemetryToSend.take 10

/-- Embedding of sendBulkTelemetry: builds the bulk post and issues the
HTTP request; the queue is not touched at issue time, the request joins
the outstanding list. -/
def sendBulkTelemetry (st : AgentState) : AgentState :=
  { st with inFlight := st.inFlight ++ [createBulkPost st] }

/-- Embedding of processTelemetryQueue: starts a bulk send whenever the
queue is non-empty, otherwise does nothing. -/
def processTelemetryQueue (st : AgentState) : AgentState :=
  if st.telemetryToSend.length > 0 then sendBulkTelemetry st else st

/-- Outcome of a bulk HTTP request: the done callback with a status code,
or the fail callback. -/
inductive BulkOutcome where
  | done (statusCode : ℕ)
  | fail
deriving DecidableEq, Repr

/-- Embedding of the callbacks of sendBulkTelemetry for the oldest
outstanding request: on done with status 200 the captured count (the
length of the tlm_list that was posted) is removed from the front of the
queue; any other status and the fail path leave the queue untouched; the
always callback then re-enters processTelemetryQueue. -/
def handleBulkResponse (st : AgentState) (outcome : BulkOutcome) : AgentState :=
  match st.inFlight with
  | [] => st
  | sent :: rest =>
    let st1 := { st with inFlight := rest }
    let st2 :=
      match outcome with
      | .done statusCode =>
        if statusCode = 200 then removeTelemetry st1 sent.length else st1
      | .fail => st1
    processTelemetryQueue st2

/-- Embedding of queueTelemetryIfNecessary, the ticker.1 handler, with the
module constant BANDWIDTH_SAVER = false: computes the elapsed time, runs
processTelemetryQueue on the transmit-rate alignment of the clock, then
decides whether to queue the snapshot from the elapsed-time budgets. -/
def queueTelemetryIfNecessary (st : AgentState) (currentTelemetry : Telemetry) :
    Option AgentState :=
  let timeSinceLastSent := jsSub currentTelemetry.utc st.lastSentTelemetry.utc
  let st :=
    if jsStrictEq (jsMod currentTelemetry.utc (.num TELEMETRY_TRANSMIT_RATE)) (.num 0)
    then processTelemetryQueue st else st
  if !BANDWIDTH_SAVER && !(jsTruthy currentTelemetry.is_parked) then
    if jsGe timeSinceLastSent (.num METRIC_POLL_RATE_DRIVING) then
      queueTelemetry st currentTelemetry BANDWIDTH_SAVER
    else some st
  else
    let st :=
      if !(jsTruthy currentTelemetry.is_parked) then
        { st with collectedMetrics := st.collectedMetrics ++ [currentTelemetry] }
      else st
    (calculateMaxElapsedDuration currentTelemetry st.lastSentTelemetry).bind
      fun maxElapsedDuration =>
        if jsGe timeSinceLastSent (.num maxElapsedDuration) then
          queueTelemetry st currentTelemetry BANDWIDTH_SAVER
        else some st

/-- Folding a sequence of enqueues (smoothing off, as at every call site
of the program, where BANDWIDTH_SAVER is false). -/
def enqueueAll (st : AgentState) (ts : List Telemetry) : Option AgentState :=
  ts.foldl (fun acc t => acc.bind fun s => queueTelemetry s t false) (some st)

/-- The derivation behaviour of a catalog entry, one tag per distinct
metric closure appearing in the source (a direct read of one raw metric,
or one of the special derivations). -/
inductive DeriveFn where
  | direct (id : String)
  | isPerformanceMode
  | parktimePositive
  | nlSocInstrument
  | nlSohInstrument
  | nlRangeInstrument
  | gearIsZero
deriving DecidableEq, Repr

/-- An entry of metricMap: the field key, the required raw metric ids
(none once deleted), and the derivation (none once deleted or never set). -/
structure MetricEntry where
  key : String
  requiredMetrics : Option (List String)
  metric : Option DeriveFn
deriving DecidableEq, Repr

/-- The body of the forEach of overrideMetricMap applied to one entry:
a switch on the vehicle type, each case mutating matching keys in place. -/
def applyOverrideEntry (vehicleType : String) (entry : MetricEntry) : MetricEntry :=
  if vehicleType = "KS" then
    if entry.key = "soh" then { entry with requiredMetrics := none, metric := none }
    else entry
  else if vehicleType = "NL" then
    let e1 :=
      if entry.key = "soc" then
        { entry with requiredMetrics := some ["xnl.v.b.soc.instrument"],
                     metric := some .nlSocInstrument }
      else entry
    let e2 :=
      if e1.key = "soh" then
        { e1 with requiredMetrics := some ["xnl.v.b.soh.instrument"],
                  metric := some .nlSohInstrument }
      else e1
    if e2.key = "est_battery_range" then
      { e2 with requiredMetrics := some ["xnl.v.b.range.instrument", "v.b.range.ideal"],
                metric := some .nlRangeInstrument }
    else e2
  else if vehicleType = "SUBSOL" ∨ vehicleType = "TOYBZ4X" then
    if entry.key = "is_parked" then
      { entry with requiredMetrics := some ["v.e.gear"], metric := some .gearIsZero }
    else entry
  else entry

/-- Embedding of overrideMetricMap, with the vehicle type it reads from
the metrics service as a parameter and the catalog passed explicitly. -/
def overrideMetricMap (vehicleType : String) (metricMap : List MetricEntry) :
    List MetricEntry :=
  metricMap.map (applyOverrideEntry vehicleType)

/-- The default metricMap of the source, restricted to the fields used by
the catalog logic (key, required raw ids, derivation tag). -/
def defaultMetricMap : List MetricEntry :=
  [ ⟨"utc", some ["m.time.utc"], some (.direct "m.time.utc")⟩,
    ⟨"soc", some ["v.b.soc"], some (.direct "v.b.soc")⟩,
    ⟨"power", some ["v.b.power"], some (.direct "v.b.power")⟩,
    ⟨"speed", some ["v.p.speed"], some (.direct "v.p.speed")⟩,
    ⟨"lat", some ["v.p.latitude"], some (.direct "v.p.latitude")⟩,
    ⟨"lon", some ["v.p.longitude"], some (.direct "v.p.longitude")⟩,
    ⟨"is_charging", some ["v.c.charging"], some (.direct "v.c.charging")⟩,
    ⟨"is_dcfc", some ["v.c.mode"], some .isPerformanceMode⟩,
    ⟨"is_parked", some ["v.e.parktime"], some .parktimePositive⟩,
    ⟨"capacity", none, none⟩,
    ⟨"soe", none, none⟩,
    ⟨"soh", some ["v.b.soh"], some (.direct "v.b.soh")⟩,
    ⟨"heading", some ["v.p.direction"], some (.direct "v.p.direction")⟩,
    ⟨"elevation", some ["v.p.altitude"], some (.direct "v.p.altitude")⟩,
    ⟨"ext_temp", some ["v.e.temp"], some (.direct "v.e.temp")⟩,
    ⟨"batt_temp", some ["v.b.temp"], some (.direct "v.b.temp")⟩,
    ⟨"voltage", some ["v.b.voltage"], some (.direct "v.b.voltage")⟩,
    ⟨"current", some ["v.b.current"], some (.direct "v.b.current")⟩,
    ⟨"odometer", some ["v.p.odometer"], some (.direct "v.p.odometer")⟩,
    ⟨"est_battery_range", some ["v.b.range.est"], some (.direct "v.b.range.est")⟩,
    ⟨"hvac_power", some [], none⟩,
    ⟨"hvac_setpoint", some ["v.e.cabinsetpoint"], some (.direct "v.e.cabinsetpoint")⟩,
    ⟨"cabin_temp", some ["v.e.cabintemp"], some (.direct "v.e.cabintemp")⟩,
    ⟨"tire_pressure_fl", some ["v.tp.fl.p"], some (.direct "v.tp.fl.p")⟩,
    ⟨"tire_pressure_fr", some ["v.tp.fr.p"], some (.direct "v.tp.fr.p")⟩,
    ⟨"tire_pressure_rl", some ["v.tp.rl.p"], some (.direct "v.tp.rl.p")⟩,
    ⟨"tire_pressure_rr", some ["v.tp.rr.p"], some (.direct "v.tp.rr.p")⟩ ]

-- Concrete inputs used by the counterexamples and witnesses.

/-- A well-typed snapshot: not parked, not charging, with the given clock
value as utc and 50 percent charge at standstill power. -/
def mkT (i : ℕ) : Telemetry :=
  { utc := .num i, soc := .num 50, power := .num 0, speed := .num 0,
    is_charging := .boolb false, is_parked := .boolb false, is_dcfc := .boolb false }

/-- The initial module state: empty queue and window, and the baseline
lastSentTelemetry object that only carries utc = 0 (every other property
read of it yields undefined). -/
def initState : AgentState :=
  { telemetryToSend := [],
    lastSentTelemetry :=
      { utc := .num 0, soc := .undef, power := .undef, speed := .undef,
        is_charging := .undef, is_parked := .undef, is_dcfc := .undef },
    collectedMetrics := [],
    inFlight := [] }

/-- The 101 distinct snapshots enqueued by the C1 counterexample. -/
def ts101 : List Telemetry := (List.range 101).map mkT

/-- A snapshot that is not parked, not charging, driving at 50 kph. -/
def tCruise : Telemetry :=
  { utc := .num 0, soc := .num 50, power := .num 0, speed := .num 50,
    is_charging := .boolb false, is_parked := .boolb false, is_dcfc := .boolb false }

/-- A snapshot whose soc is NaN and which is otherwise well typed. -/
def tNanSoc : Telemetry :=
  { utc := .num 0, soc := .nan, power := .num 0, speed := .num 0,
    is_charging := .boolb false, is_parked := .boolb false, is_dcfc := .boolb false }

/-- A state with a non-empty queue and one bulk request already
outstanding, as arises while a response has not yet been delivered. -/
def c3State : AgentState :=
  { telemetryToSend := [mkT 0], lastSentTelemetry := mkT 0,
    collectedMetrics := [], inFlight := [[mkT 9]] }

/-- A state with one queued snapshot and the cold-start baseline as the
last sent telemetry. -/
def c2State : AgentState :=
  { telemetryToSend := [mkT 0],
    lastSentTelemetry := initState.lastSentTelemetry,
    collectedMetrics := [], inFlight := [] }

instance {α : Type} (pw : α → ℚ) : IsTotal α (powLe pw) :=
  ⟨fun a b => le_total (pw a) (pw b)⟩

instance {α : Type} (pw : α → ℚ) : IsTrans α (powLe pw) :=
  ⟨fun _ _ _ hab hbc => le_trans hab hbc⟩

-- Helper lemmas shared by the claim theorems.

theorem jsStrictEq_num (a b : ℚ) : jsStrictEq (.num a) (.num b) = (a == b) := rfl

theorem jsStrictEq_boolb (a b : Bool) :
    jsStrictEq (.boolb a) (.boolb b) = (a == b) := rfl

theorem jsGe_num (a b : ℚ) : jsGe (.num a) (.num b) = decide (b ≤ a) := rfl

theorem jsGt_num (a b : ℚ) : jsGt (.num a) (.num b) = decide (b < a) := rfl

theorem jsSub_num (a b : ℚ) : jsSub (.num a) (.num b) = .num (a - b) := rfl

theorem jsMod_num (a b : ℚ) :
    jsMod (.num a) (.num b) =
      if b = 0 then .nan else .num (a - b * qTrunc (a / b)) := rfl

theorem jsTruthy_boolb (b : Bool) : jsTruthy (.boolb b) = b := by
  cases b <;> rfl

theorem jsFalsy_num (q : ℚ) : jsFalsy (.num q) = (q == 0) := rfl

theorem queueTelemetry_no_smoothing (st : AgentState) (t : Telemetry) :
    queueTelemetry st t false =
      some { st with telemetryToSend := st.telemetryToSend ++ [t],
                     lastSentTelemetry := t, collectedMetrics := [] } := rfl

theorem processTelemetryQueue_telemetryToSend (st : AgentState) :
    (processTelemetryQueue st).telemetryToSend = st.telemetryToSend := by
  unfold processTelemetryQueue sendBulkTelemetry
  split <;> rfl

theorem processTelemetryQueue_lastSent (st : AgentState) :
    (processTelemetryQueue st).lastSentTelemetry = st.lastSentTelemetry := by
  unfold processTelemetryQueue sendBulkTelemetry
  split <;> rfl

theorem processTelemetryQueue_of_empty {st : AgentState}
    (h : st.telemetryToSend = []) : processTelemetryQueue st = st := by
  simp [processTelemetryQueue, h]

theorem processTelemetryQueue_of_ne {st : AgentState}
    (h : st.telemetryToSend ≠ []) :
    processTelemetryQueue st =
      { st with inFlight := st.inFlight ++ [st.telemetryToSend.take 10] } := by
  simp [processTelemetryQueue, sendBulkTelemetry, createBulkPost,
    List.length_pos.mpr h]

theorem enqueueAll_queue (ts : List Telemetry) (st : AgentState) :
    ∃ s, enqueueAll st ts = some s ∧
      s.telemetryToSend = st.telemetryToSend ++ ts ∧
      s.inFlight = st.inFlight := by
  induction ts generalizing st with
  | nil => exact ⟨st, rfl, by simp, rfl⟩
  | cons t ts ih =>
    obtain ⟨s, h1, h2, h3⟩ :=
      ih { st with telemetryToSend := st.telemetryToSend ++ [t],
                   lastSentTelemetry := t, collectedMetrics := [] }
    refine ⟨s, ?_, by simpa using h2, h3⟩
    simpa [enqueueAll, queueTelemetry_no_smoothing] using h1

theorem jsStrictEq_self {v : JSVal} (h : v ≠ .nan) : jsStrictEq v v = true := by
  cases v with
  | nan => exact absurd rfl h
  | undef => rfl
  | boolb b => simp [jsStrictEq]
  | num q => simp [jsStrictEq]
  | posInf => rfl
  | negInf => rfl

theorem round_self_strictEq {v : JSVal} (h1 : v ≠ .nan) (h2 : v ≠ .boolb true) :
    ∃ w, round v none = some w ∧ jsStrictEq w w = true := by
  cases v with
  | undef => exact ⟨.undef, rfl, rfl⟩
  | boolb b =>
    cases b with
    | false => exact ⟨.boolb false, rfl, rfl⟩
    | true => exact absurd rfl h2
  | num q =>
    by_cases h : q = 0
    · exact ⟨.num q, by simp [round, jsFalsy_num, h], by simp [jsStrictEq_num]⟩
    · exact ⟨.num (toFixedQ q 0), by simp [round, jsFalsy_num, h],
        by simp [jsStrictEq_num]⟩
  | nan => exact absurd rfl h1
  | posInf => exact ⟨.posInf, rfl, rfl⟩
  | negInf => exact ⟨.negInf, rfl, rfl⟩

theorem medianPowerMetrics_mem {α : Type} (pw : α → ℚ) (array : List α) (r : α)
    (h : medianPowerMetrics pw array = some r) : r ∈ array := by
  unfold medianPowerMetrics medianPowerMetricsRun at h
  by_cases hlen : array.length = 0
  · rw [if_pos hlen] at h
    cases h
  · rw [if_neg hlen] at h
    simp only [] at h
    have hmem : r ∈ List.insertionSort (powLe pw) array := by
      split at h <;>
      · obtain ⟨hi, rfl⟩ := List.getElem?_eq_some_iff.mp h
        exact List.getElem_mem hi
    simpa using hmem

theorem applyOverrideEntry_unmatched (vt : String)
    (h : ¬ (vt = "KS" ∨ vt = "NL" ∨ vt = "SUBSOL" ∨ vt = "TOYBZ4X"))
    (e : MetricEntry) : applyOverrideEntry vt e = e := by
  push_neg at h
  obtain ⟨h1, h2, h3, h4⟩ := h
  simp [applyOverrideEntry, h1, h2, h3, h4]

theorem applyOverrideEntry_KS_idem (e : MetricEntry) :
    applyOverrideEntry "KS" (applyOverrideEntry "KS" e) = applyOverrideEntry "KS" e := by
  obtain ⟨k, rm, m⟩ := e
  by_cases hk : k = "soh" <;> simp [applyOverrideEntry, hk]

theorem applyOverrideEntry_NL_idem (e : MetricEntry) :
    applyOverrideEntry "NL" (applyOverrideEntry "NL" e) = applyOverrideEntry "NL" e := by
  obtain ⟨k, rm, m⟩ := e
  by_cases h1 : k = "soc"
  · simp [applyOverrideEntry, h1]
  · by_cases h2 : k = "soh"
    · simp [applyOverrideEntry, h1, h2]
    · by_cases h3 : k = "est_battery_range"
      · simp [applyOverrideEntry, h1, h2, h3]
      · simp [applyOverrideEntry, h1, h2, h3]

theorem applyOverrideEntry_gear_idem (vt : String)
    (hv : vt = "SUBSOL" ∨ vt = "TOYBZ4X") (e : MetricEntry) :
    applyOverrideEntry vt (applyOverrideEntry vt e) = applyOverrideEntry vt e := by
  have hKS : ¬ vt = "KS" := by rcases hv with rfl | rfl <;> simp
  have hNL : ¬ vt = "NL" := by rcases hv with rfl | rfl <;> simp
  obtain ⟨k, rm, m⟩ := e
  by_cases hk : k = "is_parked" <;>
    simp [applyOverrideEntry, hKS, hNL, hv, hk]

theorem applyOverrideEntry_idem (vt : String) (e : MetricEntry) :
    applyOverrideEntry vt (applyOverrideEntry vt e) = applyOverrideEntry vt e := by
  by_cases hKS : vt = "KS"
  · subst hKS
    exact applyOverrideEntry_KS_idem e
  by_cases hNL : vt = "NL"
  · subst hNL
    exact applyOverrideEntry_NL_idem e
  by_cases hSS : vt = "SUBSOL" ∨ vt = "TOYBZ4X"
  · exact applyOverrideEntry_gear_idem vt hSS e
  · have h : ¬ (vt = "KS" ∨ vt = "NL" ∨ vt = "SUBSOL" ∨ vt = "TOYBZ4X") := by
      tauto
    rw [applyOverrideEntry_unmatched vt h, applyOverrideEntry_unmatched vt h]

/-- C1 (counterexample): enqueueing 101 snapshots through queueTelemetry
onto the empty queue yields a queue of length 101, above the claimed
capacity 100, and the first-enqueued snapshot is still present, so no
eviction took place. -/
theorem c1_queue_unbounded_counterexample :
    (enqueueAll initState ts101).map AgentState.telemetryToSend = some ts101 ∧
    ts101.length = 101 ∧ ¬ ts101.length ≤ 100 ∧ mkT 0 ∈ ts101 := by
  obtain ⟨s, h1, h2, _⟩ := enqueueAll_queue ts101 initState
  refine ⟨?_, by simp [ts101], by simp [ts101], ?_⟩
  · rw [h1]
    simp [h2, initState]
  · exact List.mem_map.mpr ⟨0, by simp [List.mem_range], rfl⟩

/-- C1 (amended): the transmission queue is unbounded; queueTelemetry
always appends, so after any sequence of enqueues the queue holds every
earlier element followed by all the enqueued ones in FIFO order; nothing
is evicted, no eviction event exists, and no bulk request is started by
an enqueue. -/
theorem c1_queue_append_all (st : AgentState) (ts : List Telemetry) :
    ∃ s, enqueueAll st ts = some s ∧
      s.telemetryToSend = st.telemetryToSend ++ ts ∧
      s.telemetryToSend.length = st.telemetryToSend.length + ts.length ∧
      s.inFlight = st.inFlight := by
  obtain ⟨s, h1, h2, h3⟩ := enqueueAll_queue ts st
  exact ⟨s, h1, h2, by simp [h2], h3⟩

/-- C3 (counterexample): with one bulk request outstanding and a
non-empty queue, a processTelemetryQueue trigger starts a second bulk
request before the first receives its callback: the outstanding list
grows from one to two. -/
theorem c3_overlapping_flush_counterexample :
    c3State.inFlight.length = 1 ∧
    (processTelemetryQueue c3State).inFlight.length = 2 := ⟨rfl, rfl⟩

/-- C3 (amended): processTelemetryQueue carries no in-flight guard: with
an empty queue the trigger is a no-op, and with a non-empty queue it
always starts a new bulk request of the first ten queued snapshots,
regardless of how many requests are already outstanding. -/
theorem c3_trigger_unguarded (st : AgentState) :
    (st.telemetryToSend = [] → processTelemetryQueue st = st) ∧
    (st.telemetryToSend ≠ [] →
      processTelemetryQueue st =
        { st with inFlight := st.inFlight ++ [st.telemetryToSend.take 10] }) :=
  ⟨fun h => processTelemetryQueue_of_empty h,
   fun h => processTelemetryQueue_of_ne h⟩

/-- C3 (witness): the amended theorem evaluated at the empty initial
state and at the state with an outstanding request. -/
theorem c3_trigger_unguarded_witness :
    processTelemetryQueue initState = initState ∧
    processTelemetryQueue c3State =
      { c3State with inFlight := c3State.inFlight ++ [c3State.telemetryToSend.take 10] } :=
  ⟨(c3_trigger_unguarded initState).1 rfl,
   (c3_trigger_unguarded c3State).2 (by simp [c3State])⟩

/-- C5: a bulk flush is atomic with respect to the queue: issuing the
request removes nothing (no speculative removal), the fail callback and
every done callback with a status other than 200 leave the queue exactly
as it stands, and the done callback with status 200 removes from the
front exactly as many entries as were sent, which are exactly the sent
batch, leaving any entries appended in the meantime untouched. -/
theorem c5_flush_atomic (q ap cm : List Telemetry) (last : Telemetry) (s : ℕ) :
    (sendBulkTelemetry ⟨q, last, cm, []⟩).telemetryToSend = q ∧
    (sendBulkTelemetry ⟨q, last, cm, []⟩).inFlight = [q.take 10] ∧
    (handleBulkResponse ⟨q ++ ap, last, cm, [q.take 10]⟩ .fail).telemetryToSend =
      q ++ ap ∧
    (handleBulkResponse ⟨q ++ ap, last, cm, [q.take 10]⟩ (.done s)).telemetryToSend =
      (if s = 200 then q.drop (q.take 10).length ++ ap else q ++ ap) ∧
    (q ++ ap).take (q.take 10).length = q.take 10 := by
  have hlen : (q.take 10).length ≤ q.length := by
    simp [List.length_take]
  refine ⟨rfl, rfl, ?_, ?_, ?_⟩
  · simp [handleBulkResponse, processTelemetryQueue_telemetryToSend]
  · by_cases h200 : s = 200
    · have hmin : 10 ⊓ q.length ≤ q.length := inf_le_right
      simp [handleBulkResponse, h200, removeTelemetry,
        processTelemetryQueue_telemetryToSend, List.drop_append_of_le_length hmin]
    · simp [handleBulkResponse, h200, processTelemetryQueue_telemetryToSend]
  · rw [List.take_append_of_le_length hlen, List.length_take]
    rcases le_total 10 q.length with h | h
    · rw [min_eq_left h]
    · rw [min_eq_right h, List.take_length, List.take_of_length_le h]

/-- C4 (counterexample): on a non-significant, not-parked snapshot at
50 kph the stale-connection rule fires and the budget is 100 seconds
(3 minutes minus the 20 second buffer minus the 60 second transmit rate),
not approximately 160 seconds as claimed. -/
theorem c4_stale_budget_counterexample :
    calculateMaxElapsedDuration tCruise tCruise = some 100 ∧
    METRIC_POLL_STALE_CONNECTION = 100 ∧ ¬ (100 : ℚ) = 160 := by
  have hsig : isSignificantTelemetryChange tCruise tCruise = some false := by
    simp [isSignificantTelemetryChange, tCruise, jsStrictEq_num,
      jsStrictEq_boolb, jsTruthy_boolb]
  have hsp : jsGt tCruise.speed (.num MIN_CALIBRATION_SPEED) = false := by
    rw [show tCruise.speed = JSVal.num 50 from rfl, jsGt_num]
    norm_num [MIN_CALIBRATION_SPEED]
  have hpk : jsTruthy tCruise.is_parked = false := by
    simp [tCruise, jsTruthy_boolb]
  refine ⟨?_, by norm_num [METRIC_POLL_STALE_CONNECTION,
    TELEMETRY_TRANSMIT_RATE], by norm_num⟩
  rw [show (some 100 : Option ℚ) = some METRIC_POLL_STALE_CONNECTION by
    norm_num [METRIC_POLL_STALE_CONNECTION, TELEMETRY_TRANSMIT_RATE]]
  unfold calculateMaxElapsedDuration
  rw [hsig]
  simp [hsp, hpk]

/-- C4 (amended): calculateMaxElapsedDuration is a priority-ordered
decision table in which only the first matching rule applies: a
significant change yields budget 0 regardless of every other input
(in particular even at high speed); otherwise speed above 70 kph yields
the driving budget 5 s; otherwise not-parked or DC fast charging yields
the stale-connection budget of 100 s; otherwise standard charging yields
30 minutes; otherwise 24 hours. -/
theorem c4_decision_table (telemetry lastSent : Telemetry) :
    (isSignificantTelemetryChange telemetry lastSent = some true →
      calculateMaxElapsedDuration telemetry lastSent = some 0) ∧
    (isSignificantTelemetryChange telemetry lastSent = some false →
      jsGt telemetry.speed (.num MIN_CALIBRATION_SPEED) = true →
      calculateMaxElapsedDuration telemetry lastSent = some METRIC_POLL_RATE_DRIVING) ∧
    (isSignificantTelemetryChange telemetry lastSent = some false →
      jsGt telemetry.speed (.num MIN_CALIBRATION_SPEED) = false →
      (jsTruthy telemetry.is_parked = false ∨ jsTruthy telemetry.is_dcfc = true) →
      calculateMaxElapsedDuration telemetry lastSent = some METRIC_POLL_STALE_CONNECTION) ∧
    (isSignificantTelemetryChange telemetry lastSent = some false →
      jsGt telemetry.speed (.num MIN_CALIBRATION_SPEED) = false →
      jsTruthy telemetry.is_parked = true → jsTruthy telemetry.is_dcfc = false →
      jsTruthy telemetry.is_charging = true →
      calculateMaxElapsedDuration telemetry lastSent = some METRIC_POLL_RATE_CHARGING) ∧
    (isSignificantTelemetryChange telemetry lastSent = some false →
      jsGt telemetry.speed (.num MIN_CALIBRATION_SPEED) = false →
      jsTruthy telemetry.is_parked = true → jsTruthy telemetry.is_dcfc = false →
      jsTruthy telemetry.is_charging = false →
      calculateMaxElapsedDuration telemetry lastSent = some (24 * 3600)) ∧
    METRIC_POLL_RATE_DRIVING = 5 ∧ METRIC_POLL_STALE_CONNECTION = 100 ∧
    METRIC_POLL_RATE_CHARGING = 30 * 60 := by
  refine ⟨?_, ?_, ?_, ?_, ?_,
    by norm_num [METRIC_POLL_RATE_DRIVING],
    by norm_num [METRIC_POLL_STALE_CONNECTION, TELEMETRY_TRANSMIT_RATE],
    by norm_num [METRIC_POLL_RATE_CHARGING]⟩
  · intro hsig
    simp [calculateMaxElapsedDuration, hsig]
  · intro hsig hsp
    simp [calculateMaxElapsedDuration, hsig, hsp]
  · intro hsig hsp hpd
    rcases hpd with h | h <;>
      simp [calculateMaxElapsedDuration, hsig, hsp, h]
  · intro hsig hsp hp hd hc
    simp [calculateMaxElapsedDuration, hsig, hsp, hp, hd, hc]
  · intro hsig hsp hp hd hc
    simp [calculateMaxElapsedDuration, hsig, hsp, hp, hd, hc]

/-- C4 (witness): the amended decision table applied to concrete
snapshots: the cruising snapshot hits the stale-connection rule and the
NaN-soc snapshot hits the significant-change rule. -/
theorem c4_decision_table_witness :
    calculateMaxElapsedDuration tCruise tCruise = some METRIC_POLL_STALE_CONNECTION ∧
    calculateMaxElapsedDuration tNanSoc tNanSoc = some 0 :=
  ⟨(c4_decision_table tCruise tCruise).2.2.1
      (by simp [isSignificantTelemetryChange, tCruise, jsStrictEq_num,
        jsStrictEq_boolb, jsTruthy_boolb])
      (by norm_num [tCruise, jsGt_num, MIN_CALIBRATION_SPEED])
      (Or.inl (by simp [tCruise, jsTruthy_boolb])),
   (c4_decision_table tNanSoc tNanSoc).1 (by decide)⟩

/-- C2 (counterexample): at clock value 60, far below the year 2000
sentinel 946684800, a tick with a queued snapshot and an unparked vehicle
both starts a bulk transmission (the outstanding list gains the request)
and enqueues the new snapshot: nothing suppresses sampling or
transmission for an invalid time source. -/
theorem c2_invalid_clock_counterexample :
    (60 : ℚ) < 946684800 ∧
    queueTelemetryIfNecessary c2State (mkT 60) =
      some { telemetryToSend := [mkT 0, mkT 60], lastSentTelemetry := mkT 60,
             collectedMetrics := [], inFlight := [[mkT 0]] } := by
  have hutc : (mkT 60).utc = JSVal.num 60 := by norm_num [mkT]
  have hcond : (!BANDWIDTH_SAVER && !(jsTruthy (mkT 60).is_parked)) = true := by
    simp [BANDWIDTH_SAVER, mkT, jsTruthy_boolb]
  have htr : jsStrictEq (jsMod (mkT 60).utc (.num TELEMETRY_TRANSMIT_RATE))
      (.num 0) = true := by
    rw [hutc, jsMod_num]
    norm_num [TELEMETRY_TRANSMIT_RATE, qTrunc, jsStrictEq_num]
  have hge : jsGe (jsSub (mkT 60).utc c2State.lastSentTelemetry.utc)
      (.num METRIC_POLL_RATE_DRIVING) = true := by
    rw [hutc, show c2State.lastSentTelemetry.utc = JSVal.num 0 from rfl,
      jsSub_num, jsGe_num]
    norm_num [METRIC_POLL_RATE_DRIVING]
  refine ⟨by norm_num, ?_⟩
  simp only [queueTelemetryIfNecessary, hcond, hge, htr, if_true,
    processTelemetryQueue_of_ne (show c2State.telemetryToSend ≠ [] by
      simp [c2State])]
  rw [show BANDWIDTH_SAVER = false from rfl, queueTelemetry_no_smoothing]
  simp [c2State]

/-- C2 (amended): no time-validity gate exists: for every clock value,
including every value below the year 2000 sentinel, a tick on an unparked
vehicle with elapsed time at least the driving poll rate enqueues the
snapshot, and when the clock aligns with the transmit rate and the queue
is non-empty it also starts a bulk transmission. -/
theorem c2_no_time_gate (st : AgentState) (t : Telemetry) (u : ℚ)
    (_hutc : t.utc = .num u) (_hsentinel : u < 946684800)
    (hparked : jsTruthy t.is_parked = false)
    (helapsed : jsGe (jsSub t.utc st.lastSentTelemetry.utc)
      (.num METRIC_POLL_RATE_DRIVING) = true) :
    ∃ s, queueTelemetryIfNecessary st t = some s ∧
      s.telemetryToSend = st.telemetryToSend ++ [t] ∧
      s.lastSentTelemetry = t ∧
      (jsStrictEq (jsMod t.utc (.num TELEMETRY_TRANSMIT_RATE)) (.num 0) = true →
        st.telemetryToSend ≠ [] →
        s.inFlight = st.inFlight ++ [st.telemetryToSend.take 10]) := by
  have hcond : (!BANDWIDTH_SAVER && !(jsTruthy t.is_parked)) = true := by
    simp [BANDWIDTH_SAVER, hparked]
  have hq : (if jsStrictEq (jsMod t.utc (.num TELEMETRY_TRANSMIT_RATE)) (.num 0)
      then processTelemetryQueue st else st).telemetryToSend = st.telemetryToSend := by
    split
    · exact processTelemetryQueue_telemetryToSend st
    · rfl
  simp only [queueTelemetryIfNecessary, hcond, helapsed, if_true,
    queueTelemetry_no_smoothing]
  refine ⟨_, rfl, by simpa using hq, rfl, ?_⟩
  intro htr hne
  show (if jsStrictEq (jsMod t.utc (.num TELEMETRY_TRANSMIT_RATE)) (.num 0)
      then processTelemetryQueue st else st).inFlight = _
  rw [if_pos htr, processTelemetryQueue_of_ne hne]

/-- C2 (witness): the amended theorem applied at clock value 60 on the
state with a queued snapshot. -/
theorem c2_no_time_gate_witness :
    ∃ s, queueTelemetryIfNecessary c2State (mkT 60) = some s ∧
      s.telemetryToSend = c2State.telemetryToSend ++ [mkT 60] ∧
      s.lastSentTelemetry = mkT 60 ∧
      (jsStrictEq (jsMod (mkT 60).utc (.num TELEMETRY_TRANSMIT_RATE)) (.num 0) = true →
        c2State.telemetryToSend ≠ [] →
        s.inFlight = c2State.inFlight ++ [c2State.telemetryToSend.take 10]) :=
  c2_no_time_gate c2State (mkT 60) 60 (by norm_num [mkT]) (by norm_num)
    (by simp [mkT, jsTruthy_boolb])
    (by rw [show (mkT 60).utc = JSVal.num 60 by norm_num [mkT],
          show c2State.lastSentTelemetry.utc = JSVal.num 0 from rfl,
          jsSub_num, jsGe_num]
        norm_num [METRIC_POLL_RATE_DRIVING])

/-- C7: the rounding function used by the power-significance comparison
rounds every nonzero number half away from zero at precision 0 (the
source-side toFixed agrees with the spec-side rounding), and is
falsy-preserving: every falsy input (zero, undefined, NaN, false) is
returned unchanged, never coerced to 0. -/
theorem c7_round_spec :
    (∀ q : ℚ, q ≠ 0 →
      round (.num q) none = some (.num ((specRoundHalfAwayFromZero q : ℤ) : ℚ))) ∧
    (∀ v : JSVal, jsFalsy v = true → round v none = some v) := by
  constructor
  · intro q hq
    have hfal : jsFalsy (.num q) = false := by simp [jsFalsy_num, hq]
    have hfix : toFixedQ q 0 = ((specRoundHalfAwayFromZero q : ℤ) : ℚ) := by
      unfold toFixedQ specRoundHalfAwayFromZero
      by_cases h : q < 0
      · rw [if_pos h, if_neg (not_le.mpr h)]
        push_cast
        simp
      · rw [if_neg h, if_pos (not_lt.mp h)]
        simp
    simp [round, hfal, hfix]
  · intro v hv
    simp [round, hv]

/-- C7 (witness): the theorem evaluated at 5/2 (rounds up to 3), at -5/2
(rounds away from zero to -3), and at the falsy inputs NaN and 0, which
come back unchanged. -/
theorem c7_round_spec_witness :
    round (.num (5 / 2)) none = some (.num 3) ∧
    round (.num (-5 / 2)) none = some (.num (-3)) ∧
    round .nan none = some .nan ∧
    round (.num 0) none = some (.num 0) := by
  refine ⟨?_, ?_, c7_round_spec.2 .nan rfl,
    c7_round_spec.2 (.num 0) (by simp [jsFalsy_num])⟩
  · rw [c7_round_spec.1 (5 / 2) (by norm_num)]
    norm_num [specRoundHalfAwayFromZero]
  · rw [c7_round_spec.1 (-5 / 2) (by norm_num)]
    norm_num [specRoundHalfAwayFromZero]

/-- C8 (counterexample): a snapshot whose soc is NaN is reported as a
significant change from itself, because the strict inequality NaN to NaN
holds in JS, refuting irreflexivity over all non-finite field values. -/
theorem c8_nan_counterexample :
    isSignificantTelemetryChange tNanSoc tNanSoc = some true := by decide

/-- C8 (amended): the significance predicate is irreflexive on every
snapshot none of whose compared fields misbehaves: if soc, the charging
flag and the parked flag are not NaN, and, when the charging flag is
truthy, the power is neither NaN nor the boolean true (the one value on
which the rounding would raise a TypeError), then comparing a snapshot
with itself yields false. -/
theorem c8_not_significant_self (A : Telemetry) (hsoc : A.soc ≠ .nan)
    (hch : A.is_charging ≠ .nan) (hpk : A.is_parked ≠ .nan)
    (hpow : jsTruthy A.is_charging = true → A.power ≠ .nan ∧ A.power ≠ .boolb true) :
    isSignificantTelemetryChange A A = some false := by
  by_cases hc : jsTruthy A.is_charging = true
  · obtain ⟨h1, h2⟩ := hpow hc
    obtain ⟨w, hw, hww⟩ := round_self_strictEq h1 h2
    simp [isSignificantTelemetryChange, jsStrictEq_self hsoc,
      jsStrictEq_self hch, jsStrictEq_self hpk, hc, hw, hww]
  · simp [isSignificantTelemetryChange, jsStrictEq_self hsoc,
      jsStrictEq_self hch, jsStrictEq_self hpk, hc]

/-- C8 (witness): the amended theorem at a well-typed snapshot. -/
theorem c8_not_significant_self_witness :
    isSignificantTelemetryChange (mkT 5) (mkT 5) = some false :=
  c8_not_significant_self (mkT 5) (by simp [mkT]) (by simp [mkT]) (by simp [mkT])
    (by intro h; simp [mkT, jsTruthy_boolb] at h)

/-- C6: medianPowerMetrics returns none on the empty window; returns the
single element of a singleton window unchanged; the list it selects from
is the window sorted ascending by power and is a permutation of the
window; on an odd-length window it returns the entry at the middle index
of that sorted list and on an even-length window the entry at index
n / 2 - 1 (the lower middle); the result is always an element of the
input window, never a synthesized average. -/
theorem c6_median_selection {α : Type} (pw : α → ℚ) (array : List α) :
    (array = [] → medianPowerMetrics pw array = none) ∧
    (∀ a, array = [a] → medianPowerMetrics pw array = some a) ∧
    List.Sorted (powLe pw) (List.insertionSort (powLe pw) array) ∧
    (List.insertionSort (powLe pw) array).Perm array ∧
    (array ≠ [] → array.length % 2 = 1 →
      medianPowerMetrics pw array =
        (List.insertionSort (powLe pw) array)[array.length / 2]?) ∧
    (array ≠ [] → array.length % 2 = 0 →
      medianPowerMetrics pw array =
        (List.insertionSort (powLe pw) array)[array.length / 2 - 1]?) ∧
    (∀ r, medianPowerMetrics pw array = some r → r ∈ array) := by
  refine ⟨?_, ?_, List.sorted_insertionSort _ _, List.perm_insertionSort _ _,
    ?_, ?_, ?_⟩
  · intro h
    subst h
    rfl
  · intro a h
    subst h
    simp [medianPowerMetrics, medianPowerMetricsRun, List.insertionSort,
      List.orderedInsert]
  · intro h1 h2
    have h0 : ¬ array.length = 0 := fun hl => h1 (List.length_eq_zero.mp hl)
    unfold medianPowerMetrics medianPowerMetricsRun
    rw [if_neg h0]
    simp only [List.length_insertionSort]
    rw [if_neg (by omega)]
  · intro h1 h2
    have h0 : ¬ array.length = 0 := fun hl => h1 (List.length_eq_zero.mp hl)
    unfold medianPowerMetrics medianPowerMetricsRun
    rw [if_neg h0]
    simp only [List.length_insertionSort]
    rw [if_pos h2]
  · intro r h
    exact medianPowerMetrics_mem pw array r h

/-- C6 (witness): the theorem on the even-length window with powers 1 and
4 (returns the power-1 entry, the lower middle, never the average 2.5)
and on the window with powers 1, 3, 2 (returns the power-2 entry, the
middle of the sorted window). -/
theorem c6_median_selection_witness :
    medianPowerMetrics Prod.fst [((1 : ℚ), (10 : ℚ)), ((4 : ℚ), (40 : ℚ))] =
      some (1, 10) ∧
    medianPowerMetrics Prod.fst
      [((1 : ℚ), (10 : ℚ)), ((3 : ℚ), (30 : ℚ)), ((2 : ℚ), (20 : ℚ))] =
      some (2, 20) := by
  constructor
  · rw [(c6_median_selection Prod.fst _).2.2.2.2.2.1 (by simp) (by simp)]
    norm_num [List.insertionSort, List.orderedInsert, powLe]
  · rw [(c6_median_selection Prod.fst _).2.2.2.2.1 (by simp) (by simp)]
    norm_num [List.insertionSort, List.orderedInsert, powLe]

/-- C10: medianPowerMetrics does not mutate its input: the window flows
through the call unchanged (the sort operates on the slice copy), the
selected value agrees with the pure selection, and a returned reading is
one of the original elements of the window of the caller. -/
theorem c10_median_no_mutation {α : Type} (pw : α → ℚ) (array : List α) :
    (medianPowerMetricsRun pw array).2 = array ∧
    (medianPowerMetricsRun pw array).1 = medianPowerMetrics pw array ∧
    (∀ r, (medianPowerMetricsRun pw array).1 = some r → r ∈ array) := by
  refine ⟨?_, rfl, ?_⟩
  · unfold medianPowerMetricsRun
    split <;> rfl
  · intro r h
    exact medianPowerMetrics_mem pw array r h

/-- C10 (witness): the theorem on the two-element window: the window
comes back unchanged and the returned reading is an original element. -/
theorem c10_median_no_mutation_witness :
    (medianPowerMetricsRun Prod.fst [((1 : ℚ), (10 : ℚ)), ((4 : ℚ), (40 : ℚ))]).2 =
      [((1 : ℚ), (10 : ℚ)), ((4 : ℚ), (40 : ℚ))] ∧
    ((1 : ℚ), (10 : ℚ)) ∈ [((1 : ℚ), (10 : ℚ)), ((4 : ℚ), (40 : ℚ))] := by
  refine ⟨(c10_median_no_mutation Prod.fst _).1,
    (c10_median_no_mutation Prod.fst _).2.2 (1, 10) ?_⟩
  show medianPowerMetrics Prod.fst [((1 : ℚ), (10 : ℚ)), ((4 : ℚ), (40 : ℚ))] =
    some (1, 10)
  unfold medianPowerMetrics medianPowerMetricsRun
  norm_num [List.insertionSort, List.orderedInsert, powLe]

/-- C9: the vehicle-type override pass is idempotent: applying
overrideMetricMap twice with the same vehicle type yields the same
catalog as applying it once, and for every vehicle type outside the
closed set KS, NL, SUBSOL, TOYBZ4X the catalog is left unchanged. -/
theorem c9_override_idempotent (vehicleType : String)
    (metricMap : List MetricEntry) :
    overrideMetricMap vehicleType (overrideMetricMap vehicleType metricMap) =
      overrideMetricMap vehicleType metricMap ∧
    (¬ (vehicleType = "KS" ∨ vehicleType = "NL" ∨ vehicleType = "SUBSOL" ∨
        vehicleType = "TOYBZ4X") →
      overrideMetricMap vehicleType metricMap = metricMap) := by
  constructor
  · unfold overrideMetricMap
    rw [List.map_map]
    exact List.map_congr_left fun e _ => applyOverrideEntry_idem vehicleType e
  · intro h
    unfold overrideMetricMap
    have step : metricMap.map (applyOverrideEntry vehicleType) = metricMap.map id :=
      List.map_congr_left fun e _ => applyOverrideEntry_unmatched vehicleType h e
    rw [step, List.map_id]

/-- C9 (witness): the theorem evaluated on the default catalog at an
unhandled vehicle type tag and, for idempotence, at the NL tag. -/
theorem c9_override_idempotent_witness :
    overrideMetricMap "XX" defaultMetricMap = defaultMetricMap ∧
    overrideMetricMap "NL" (overrideMetricMap "NL" defaultMetricMap) =
      overrideMetricMap "NL" defaultMetricMap :=
  ⟨(c9_override_idempotent "XX" defaultMetricMap).2 (by decide),
   (c9_override_idempotent "NL" defaultMetricMap).1⟩

end Abrp
